import Mathlib

/-!
# Verification of the go-cli parallel repository-synchronization engine

Shallow embedding of `internal/git` (scanner.go, operations.go, sync.go) of
the `oddjob23/go-cli` repository.  External `git` invocations are modelled by
an environment `GitEnv : Cmd → ExecResult` giving, for each argument list, the
outcome of running `git` with those arguments in the repository's directory.
Every embedded operation also returns the trace of commands it issued, so that
frame properties ("command X was never run") are statable.
-/

deriving instance DecidableEq for Except

namespace GoCli

/-- Outcome of one external `git` invocation: exit 0 with the captured output,
a nonzero exit status with the captured output, or a failure to launch the
process at all (Go: a non-`ExitError` error from `exec.Cmd`). -/
inductive ExecResult where
  | ok (output : String)
  | exitErr (code : Nat) (output : String)
  | launchErr (msg : String)
deriving DecidableEq, Repr

/-- An argument list passed to the `git` binary. -/
abbrev Cmd := List String

/-- The external world seen by one repository: what each `git` command returns
when run in that repository's directory. -/
abbrev GitEnv := Cmd → ExecResult

/-- `git diff --cached --quiet` (staged-changes check). -/
def diffCachedCmd : Cmd := ["diff", "--cached", "--quiet"]

/-- `git diff --quiet` (unstaged-changes check). -/
def diffQuietCmd : Cmd := ["diff", "--quiet"]

/-- `git pull`. -/
def pullCmd : Cmd := ["pull"]

/-- `git fetch`. -/
def fetchCmd : Cmd := ["fetch"]

/-- `git symbolic-ref refs/remotes/origin/HEAD`. -/
def symbolicRefCmd : Cmd := ["symbolic-ref", "refs/remotes/origin/HEAD"]

/-- `git show-ref --verify --quiet refs/heads/main`. -/
def showRefMainCmd : Cmd := ["show-ref", "--verify", "--quiet", "refs/heads/main"]

/-- `git show-ref --verify --quiet refs/heads/master`. -/
def showRefMasterCmd : Cmd := ["show-ref", "--verify", "--quiet", "refs/heads/master"]

/-- `git branch --show-current`. -/
def branchShowCurrentCmd : Cmd := ["branch", "--show-current"]

/-- `git checkout <branch>`. -/
def checkoutCmd (branch : String) : Cmd := ["checkout", branch]

/-- `git branch --set-upstream-to=origin/<branch> <branch>`. -/
def setUpstreamCmd (branch : String) : Cmd :=
  ["branch", "--set-upstream-to=origin/" ++ branch, branch]

/-- `git pull origin <branch>`. -/
def pullOriginCmd (branch : String) : Cmd := ["pull", "origin", branch]

/-- ASCII whitespace, the part of Go's `unicode.IsSpace` these outputs use. -/
def isSpaceChar (c : Char) : Bool :=
  c = ' ' || c = '\t' || c = '\n' || c = '\r' || c = '\x0b' || c = '\x0c'

/-- Drop leading whitespace characters. -/
def dropLeadingSpace : List Char → List Char
  | [] => []
  | c :: l => if isSpaceChar c then dropLeadingSpace l else c :: l

/-- `strings.TrimSpace` on a character list. -/
def trimChars (l : List Char) : List Char :=
  ((dropLeadingSpace (dropLeadingSpace l).reverse)).reverse

/-- `strings.TrimSpace`. -/
def trimString (s : String) : String := ⟨trimChars s.data⟩

/-- `strings.Split` at `/` on a character list (the separator used by
`getDefaultBranch`); always returns at least one (possibly empty) piece. -/
def splitOnSlash : List Char → List (List Char)
  | [] => [[]]
  | c :: l =>
    if c = '/' then [] :: splitOnSlash l
    else
      match splitOnSlash l with
      | [] => [[c]]
      | piece :: rest => (c :: piece) :: rest

/-- ASCII lower-casing of one character. -/
def lowerChar (c : Char) : Char :=
  if 'A' ≤ c && c ≤ 'Z' then Char.ofNat (c.toNat + 32) else c

/-- `strings.ToLower` (on the ASCII outputs git produces). -/
def toLowerString (s : String) : String := ⟨s.data.map lowerChar⟩

/-- Whether `p` occurs as a contiguous run inside `l`. -/
def listInfixOf (p : List Char) : List Char → Bool
  | [] => p.isPrefixOf []
  | c :: m => p.isPrefixOf (c :: m) || listInfixOf p m

/-- `strings.Contains text pat`. -/
def containsSubstr (text pat : String) : Bool :=
  listInfixOf pat.toList text.toList

/-- `Operations.executeGitCommand` (operations.go): runs `git args...` in the
repository, returns `none` on exit 0 and otherwise the formatted error
`git command failed: <err> (output: <combined output>)`, where `<err>` is
Go's `err.Error()` (`exit status N` for a nonzero exit). -/
def executeGitCommand (g : GitEnv) (args : Cmd) : Option String :=
  match g args with
  | .ok _ => none
  | .exitErr code out =>
      some ("git command failed: exit status " ++ toString code ++ " (output: " ++ out ++ ")")
  | .launchErr m => some ("git command failed: " ++ m ++ " (output: )")

/-- `Operations.hasUncommittedChanges` (operations.go): staged check
(`diff --cached --quiet`) then unstaged check (`diff --quiet`).  Exit 1 of
either means "dirty" (`.ok true`); exit 0 of both means clean (`.ok false`);
any other failure is an error.  Second component: the issued commands. -/
def hasUncommittedChanges (g : GitEnv) : Except String Bool × List Cmd :=
  match g diffCachedCmd with
  | .exitErr 1 _ => (.ok true, [diffCachedCmd])
  | .exitErr code _ =>
      (.error ("failed to check staged changes: exit status " ++ toString code), [diffCachedCmd])
  | .launchErr m => (.error ("failed to check staged changes: " ++ m), [diffCachedCmd])
  | .ok _ =>
    match g diffQuietCmd with
    | .exitErr 1 _ => (.ok true, [diffCachedCmd, diffQuietCmd])
    | .exitErr code _ =>
        (.error ("failed to check unstaged changes: exit status " ++ toString code),
          [diffCachedCmd, diffQuietCmd])
    | .launchErr m =>
        (.error ("failed to check unstaged changes: " ++ m), [diffCachedCmd, diffQuietCmd])
    | .ok _ => (.ok false, [diffCachedCmd, diffQuietCmd])

/-- `Operations.getCurrentBranch` (operations.go): `git branch --show-current`,
trimmed output on success. -/
def getCurrentBranch (g : GitEnv) : Except String String × List Cmd :=
  match g branchShowCurrentCmd with
  | .ok out => (.ok (trimString out), [branchShowCurrentCmd])
  | .exitErr code _ =>
      (.error ("failed to get current branch: exit status " ++ toString code),
        [branchShowCurrentCmd])
  | .launchErr m => (.error ("failed to get current branch: " ++ m), [branchShowCurrentCmd])

/-- The last `/`-separated segment of the trimmed output, as in
`getDefaultBranch`: `strings.Split(strings.TrimSpace(output), "/")`, last piece. -/
def lastSegment (out : String) : String :=
  ⟨(splitOnSlash (trimChars out.data)).getLastD []⟩

/-- `Operations.getDefaultBranch` (operations.go): `symbolic-ref
refs/remotes/origin/HEAD` (last path segment on success), else `main` if
`refs/heads/main` exists, else `master` if `refs/heads/master` exists, else
the hard-coded `main`.  Every Go return path carries a nil error, which the
embedding keeps as the `Except` being `.ok`. -/
def getDefaultBranch (g : GitEnv) : Except String String × List Cmd :=
  match g symbolicRefCmd with
  | .ok out => (.ok (lastSegment out), [symbolicRefCmd])
  | _ =>
    match executeGitCommand g showRefMainCmd with
    | none => (.ok "main", [symbolicRefCmd, showRefMainCmd])
    | some _ =>
      match executeGitCommand g showRefMasterCmd with
      | none => (.ok "master", [symbolicRefCmd, showRefMainCmd, showRefMasterCmd])
      | some _ => (.ok "main", [symbolicRefCmd, showRefMainCmd, showRefMasterCmd])

/-- `Operations.setupTrackingAndPull` (operations.go): fetch, then try to bind
the upstream; if binding succeeds retry a plain pull, if binding fails run
`pull origin <branch>` instead. -/
def setupTrackingAndPull (g : GitEnv) (branchName : String) : Option String × List Cmd :=
  match executeGitCommand g fetchCmd with
  | some e => (some ("failed to fetch: " ++ e), [fetchCmd])
  | none =>
    match executeGitCommand g (setUpstreamCmd branchName) with
    | some _ =>
      match executeGitCommand g (pullOriginCmd branchName) with
      | some e =>
          (some ("failed to pull from origin/" ++ branchName ++ ": " ++ e),
            [fetchCmd, setUpstreamCmd branchName, pullOriginCmd branchName])
      | none => (none, [fetchCmd, setUpstreamCmd branchName, pullOriginCmd branchName])
    | none =>
      match executeGitCommand g pullCmd with
      | some e =>
          (some ("failed to pull after setting upstream: " ++ e),
            [fetchCmd, setUpstreamCmd branchName, pullCmd])
      | none => (none, [fetchCmd, setUpstreamCmd branchName, pullCmd])

/-- `Operations.pullWithFallback` (operations.go): plain pull; on failure,
fall back to `setupTrackingAndPull` exactly when the error text contains
`no tracking information`, otherwise return the original error. -/
def pullWithFallback (g : GitEnv) (branchName : String) : Option String × List Cmd :=
  match executeGitCommand g pullCmd with
  | none => (none, [pullCmd])
  | some e =>
    if containsSubstr e "no tracking information" then
      let st := setupTrackingAndPull g branchName
      (st.fst, pullCmd :: st.snd)
    else (some e, [pullCmd])

/-- `git.Repository` (scanner.go). -/
structure Repository where
  path : String
  name : String
deriving DecidableEq, Repr, Inhabited

/-- `git.OperationResult` (operations.go): the Go `Error error` field is kept
as `errMsg : Option String` (the error's message). -/
structure OperationResult where
  repository : Repository
  success : Bool
  errMsg : Option String
  message : String
deriving DecidableEq, Repr, Inhabited

/-- The branch-selection step of `CheckoutMainBranch`:
`targetBranch := branchName; if targetBranch == "" || targetBranch == "main"
\x7b targetBranch = defaultBranch \x7d`. -/
def resolveTarget (branchName defaultBranch : String) : String :=
  if branchName = "" || branchName = "main" then defaultBranch else branchName

/-- `Operations.CheckoutMainBranch` (operations.go): guard for uncommitted
changes, resolve the default branch, pick the target branch, read the current
branch, checkout if needed, then pull with fallback.  Second component: the
trace of issued `git` commands. -/
def CheckoutMainBranch (g : GitEnv) (repo : Repository) (branchName : String) :
    OperationResult × List Cmd :=
  match hasUncommittedChanges g with
  | (.error e, tr0) =>
      let m := "failed to check repository status: " ++ e
      (⟨repo, false, some m, m⟩, tr0)
  | (.ok true, tr0) =>
      (⟨repo, false, some "repository has uncommitted changes",
        "Skipped: Repository has uncommitted changes. Please commit or stash changes first."⟩,
        tr0)
  | (.ok false, tr0) =>
    match getDefaultBranch g with
    | (.error e, tr1) =>
        let m := "failed to determine default branch: " ++ e
        (⟨repo, false, some m, m⟩, tr0 ++ tr1)
    | (.ok defaultBranch, tr1) =>
      let targetBranch := resolveTarget branchName defaultBranch
      match getCurrentBranch g with
      | (.error e, tr2) =>
          let m := "failed to get current branch: " ++ e
          (⟨repo, false, some m, m⟩, tr0 ++ tr1 ++ tr2)
      | (.ok currentBranch, tr2) =>
        if currentBranch = targetBranch then
          match pullWithFallback g targetBranch with
          | (some e, tr3) =>
              let m := "failed to pull latest changes: " ++ e
              (⟨repo, false, some m, m⟩, tr0 ++ tr1 ++ tr2 ++ tr3)
          | (none, tr3) =>
              (⟨repo, true, none,
                "Already on '" ++ targetBranch ++ "', pulled latest changes"⟩,
                tr0 ++ tr1 ++ tr2 ++ tr3)
        else
          match executeGitCommand g (checkoutCmd targetBranch) with
          | some e =>
              let m := "failed to checkout branch '" ++ targetBranch ++ "': " ++ e
              (⟨repo, false, some m, m⟩, tr0 ++ tr1 ++ tr2 ++ [checkoutCmd targetBranch])
          | none =>
            match pullWithFallback g targetBranch with
            | (some e, tr3) =>
                let m := "failed to pull latest changes: " ++ e
                (⟨repo, false, some m, m⟩,
                  tr0 ++ tr1 ++ tr2 ++ [checkoutCmd targetBranch] ++ tr3)
            | (none, tr3) =>
                (⟨repo, true, none,
                  "Checked out '" ++ targetBranch ++ "' and pulled latest changes"⟩,
                  tr0 ++ tr1 ++ tr2 ++ [checkoutCmd targetBranch] ++ tr3)

/-- What `os.Stat` can find at a path. -/
inductive FsKind where
  | dir
  | file
deriving DecidableEq, Repr

/-- One entry of `os.ReadDir`. -/
structure DirEntry where
  name : String
  isDir : Bool
deriving DecidableEq, Repr

/-- The filesystem seen by the scanner: `stat` is `os.Stat` (`none` when the
path does not exist) and `readDir` is `os.ReadDir` in directory-listing
order. -/
structure FileSystem where
  stat : String → Option FsKind
  readDir : String → Except String (List DirEntry)

/-- `filepath.Join` for the clean relative names the scanner produces. -/
def joinPath (a b : String) : String := a ++ "/" ++ b

/-- `Scanner.ScanDirectory` (scanner.go): error when the root does not exist
or cannot be listed; otherwise, append a `Repository` for every immediate
entry that is a directory and whose `<entry>/.git` path exists (`os.Stat`
succeeds, whatever kind of object it finds). -/
def ScanDirectory (fs : FileSystem) (rootDir : String) : Except String (List Repository) :=
  if (fs.stat rootDir).isNone then
    .error ("stat " ++ rootDir ++ ": no such file or directory")
  else
    match fs.readDir rootDir with
    | .error e => .error e
    | .ok entries =>
      .ok (entries.foldl
        (fun acc entry =>
          if entry.isDir then
            if (fs.stat (joinPath (joinPath rootDir entry.name) ".git")).isSome then
              acc ++ [⟨joinPath rootDir entry.name, entry.name⟩]
            else acc
          else acc)
        [])

/-- `git.SyncResult` (sync.go). -/
structure SyncResult where
  totalRepositories : Nat
  successCount : Nat
  failureCount : Nat
  results : List OperationResult
deriving DecidableEq, Repr

/-- One worker's job (the body of the goroutine in
`processRepositoriesParallel`): run `CheckoutMainBranch` for the repository in
its own directory.  `g` maps a repository path to that repository's
environment (Go: `cmd.Dir = repo.Path`). -/
def syncOne (g : String → GitEnv) (branchName : String) (repo : Repository) :
    OperationResult :=
  (CheckoutMainBranch (g repo.path) repo branchName).fst

/-- The slot-writing of `processRepositoriesParallel`: a pre-sized slice of
`n` empty slots, and each completing worker `i` (in completion order `sched`)
writes its result at its own discovery index `i`. -/
def runSchedule (work : Nat → OperationResult) (n : Nat) (sched : List Nat) :
    List (Option OperationResult) :=
  sched.foldl (fun slots i => slots.set i (some (work i))) (List.replicate n none)

/-- `Syncer.processRepositoriesParallel` (sync.go): one goroutine per
repository, each writing `CheckoutMainBranch`'s result into `results[index]`
of a pre-sized slice; `sched` is the order in which the workers happen to
complete (any interleaving the scheduler may produce). -/
def processRepositoriesParallel (g : String → GitEnv) (repositories : List Repository)
    (branchName : String) (sched : List Nat) : List OperationResult :=
  (runSchedule (fun i => syncOne g branchName (repositories.getD i default))
      repositories.length sched).map (fun slot => slot.getD default)

/-- `Syncer.SyncRepositories` (sync.go): scan, return the wrapped scan error
on failure, the all-zero result on an empty scan, and otherwise the processed
results with `SuccessCount`/`FailureCount` counted in one pass. -/
def SyncRepositories (fs : FileSystem) (g : String → GitEnv)
    (rootDir branchName : String) (sched : List Nat) : Except String SyncResult :=
  match ScanDirectory fs rootDir with
  | .error e => .error ("failed to scan directory: " ++ e)
  | .ok repositories =>
    if repositories.length = 0 then
      .ok ⟨0, 0, 0, []⟩
    else
      let results := processRepositoriesParallel g repositories branchName sched
      .ok ⟨repositories.length,
        results.countP (fun r => r.success),
        results.countP (fun r => !r.success),
        results⟩

/-- The failure taxonomy of the ErrorClassifier (spec taxonomy, §7). -/
inductive FailureKind where
  | UncommittedChanges
  | AlreadyCurrent
  | BranchNotFound
  | NotARepository
  | PathNotFound
  | PermissionDenied
  | RemoteInaccessible
  | NoTrackingBranch
  | CommandFailed
deriving DecidableEq, Repr

/-- Modelled from the spec: the ErrorClassifier (`Operations.handleGitError`)
is absent from the provided sources — only its tests appear
(`TestHandleGitError`).  Modelled from spec §4.5: case-insensitive substring
matching against the raw output, evaluated in the fixed priority order 1–10,
first match wins, with the user-message templates the spec's §8 test points
require. -/
def classify (output command : String) : FailureKind × String :=
  let lower := toLowerString output
  if containsSubstr lower "uncommitted changes" || containsSubstr lower "would be overwritten" then
    (.UncommittedChanges,
      "Repository has uncommitted changes. Please commit or stash changes first.")
  else if containsSubstr lower "already on" && containsSubstr lower "main" then
    (.AlreadyCurrent, "Already on 'main' branch")
  else if containsSubstr lower "did not match any file" ||
      (containsSubstr lower "pathspec" && containsSubstr lower "did not match") then
    (.BranchNotFound, "Branch does not exist in this repository")
  else if containsSubstr lower "not a git repository" then
    (.NotARepository, "Not a valid Git repository")
  else if containsSubstr lower "no such file or directory" then
    (.PathNotFound, "Repository path does not exist")
  else if containsSubstr lower "permission denied" then
    (.PermissionDenied, "Permission denied accessing repository")
  else if containsSubstr lower "repository not found" ||
      containsSubstr lower "could not read from remote" then
    (.RemoteInaccessible, "Remote repository not accessible or not found")
  else if containsSubstr lower "no tracking information" then
    (.NoTrackingBranch, "No tracking branch configured for this branch")
  else if containsSubstr lower "your local changes to the following files" then
    (.UncommittedChanges,
      "Repository has uncommitted changes. Please commit or stash changes first.")
  else
    (.CommandFailed, "Git " ++ command ++ " failed: " ++ output)

/-- `ExecResult` is exit status 0 (the command ran and succeeded). -/
def exitsZero : ExecResult → Bool
  | .ok _ => true
  | _ => false

/-- `ExecResult` is exit status 1 (the "differences found" signal of
`git diff --quiet`). -/
def exitsOne : ExecResult → Bool
  | .exitErr 1 _ => true
  | _ => false

/-! Concrete environments used to witness the theorems on satisfiable
hypotheses. -/

/-- A clean repository already on `main`, with a reachable remote. -/
def gClean : GitEnv := fun c =>
  if c = diffCachedCmd then .ok ""
  else if c = diffQuietCmd then .ok ""
  else if c = symbolicRefCmd then .exitErr 128 ""
  else if c = showRefMainCmd then .ok ""
  else if c = branchShowCurrentCmd then .ok "main\n"
  else if c = pullCmd then .ok ""
  else .launchErr "unexpected command"

/-- A repository with staged modifications (`diff --cached --quiet` exits 1). -/
def gDirty : GitEnv := fun c =>
  if c = diffCachedCmd then .exitErr 1 "" else .launchErr "unexpected command"

/-- A clean repository on branch `dev` whose default branch detection finds
only a local `master` (no remote HEAD, no local `main`). -/
def gMaster : GitEnv := fun c =>
  if c = diffCachedCmd then .ok ""
  else if c = diffQuietCmd then .ok ""
  else if c = symbolicRefCmd then .exitErr 128 ""
  else if c = showRefMainCmd then .exitErr 1 ""
  else if c = showRefMasterCmd then .ok ""
  else if c = branchShowCurrentCmd then .ok "dev\n"
  else if c = checkoutCmd "master" then .ok ""
  else if c = pullCmd then .ok ""
  else .launchErr "unexpected command"

/-- A repository whose remote HEAD symbolic ref resolves to
`refs/remotes/origin/main`. -/
def gSym : GitEnv := fun c =>
  if c = symbolicRefCmd then .ok "refs/remotes/origin/main\n"
  else .launchErr "unexpected command"

/-- A repository whose plain pull fails with a non-tracking-related error. -/
def gPullConflict : GitEnv := fun c =>
  if c = pullCmd then
    .exitErr 1 "error: Your local changes to the following files would be overwritten by merge"
  else .launchErr "unexpected command"

/-- Every repository of the demo root behaves like `gClean`. -/
def gEnvOf : String → GitEnv := fun _ => gClean

/-- First repository of the demo root. -/
def repoAlpha : Repository := ⟨"/r/alpha", "alpha"⟩

/-- Second repository of the demo root (its `.git` is a plain file). -/
def repoBeta : Repository := ⟨"/r/beta", "beta"⟩

/-- Listing of the demo root: two qualifying directories, one plain file, one
directory without a `.git` marker. -/
def demoEntries : List DirEntry :=
  [⟨"alpha", true⟩, ⟨"notes.txt", false⟩, ⟨"plain", true⟩, ⟨"beta", true⟩]

/-- The demo filesystem: root `/r` with `alpha` (a `.git` directory), `beta`
(a `.git` regular file), `plain` (no marker) and a stray plain file. -/
def demoFS : FileSystem where
  stat p :=
    if p = "/r" then some .dir
    else if p = "/r/alpha/.git" then some .dir
    else if p = "/r/beta/.git" then some .file
    else none
  readDir p := if p = "/r" then .ok demoEntries else .error "read error"

/-- The outcome `gClean` produces for a repository. -/
def okResult (repo : Repository) : OperationResult :=
  ⟨repo, true, none, "Already on 'main', pulled latest changes"⟩

/-- The batch result of syncing the demo root with every worker clean. -/
def demoBatch : SyncResult :=
  ⟨2, 2, 0, [okResult repoAlpha, okResult repoBeta]⟩

/-! ## Helper lemmas -/

/-- The guard issues only the two diff-inspection commands. -/
theorem hasUncommittedChanges_trace (g : GitEnv) :
    ∀ c ∈ (hasUncommittedChanges g).snd, c = diffCachedCmd ∨ c = diffQuietCmd := by
  unfold hasUncommittedChanges
  rcases g diffCachedCmd with o | ⟨code, out⟩ | m
  · rcases g diffQuietCmd with o2 | ⟨code2, out2⟩ | m2
    · simp
    · rcases code2 with _ | _ | code2 <;> simp
    · simp
  · rcases code with _ | _ | code <;> simp
  · simp

/-- Writing into slots never changes the slice length. -/
theorem foldl_set_length (w : Nat → OperationResult) (sched : List Nat)
    (init : List (Option OperationResult)) :
    (sched.foldl (fun slots i => slots.set i (some (w i))) init).length = init.length := by
  induction sched generalizing init with
  | nil => rfl
  | cons a l ih => rw [List.foldl_cons, ih, List.length_set]

/-- Contents of slot `j` after the workers in `sched` have written their
results: the value of worker `j` when `j` completed and the slot exists,
otherwise the slot's initial contents. -/
theorem foldl_set_getElem? (w : Nat → OperationResult) (sched : List Nat)
    (init : List (Option OperationResult)) (j : Nat) :
    (sched.foldl (fun slots i => slots.set i (some (w i))) init)[j]? =
      if j ∈ sched ∧ j < init.length then some (some (w j)) else init[j]? := by
  induction sched generalizing init with
  | nil => simp
  | cons a l ih =>
    rw [List.foldl_cons, ih]
    by_cases hj : j < init.length
    · by_cases hmem : j ∈ l
      · simp [hmem, hj, List.length_set]
      · by_cases hja : j = a
        · subst hja
          simp [hmem, hj, List.length_set, List.getElem?_set_eq_of_lt _ hj]
        · have hne : a ≠ j := fun hh => hja hh.symm
          simp [hmem, hj, List.length_set, List.getElem?_set_ne hne, hja]
    · have h1 : init.length ≤ j := Nat.le_of_not_lt hj
      have h2 : (init.set a (some (w a))).length ≤ j := by
        rw [List.length_set]; exact h1
      simp [hj, List.length_set, List.getElem?_eq_none h1, List.getElem?_eq_none h2]

/-- The result slice always has one slot per discovered repository. -/
theorem processRepositoriesParallel_length (g : String → GitEnv)
    (repositories : List Repository) (branchName : String) (sched : List Nat) :
    (processRepositoriesParallel g repositories branchName sched).length =
      repositories.length := by
  unfold processRepositoriesParallel runSchedule
  rw [List.length_map, foldl_set_length, List.length_replicate]

/-- Successes and failures of a result list partition it. -/
theorem countP_success_total (l : List OperationResult) :
    l.countP (fun r => r.success) + l.countP (fun r => !r.success) = l.length := by
  induction l with
  | nil => rfl
  | cons r l ih =>
    rcases hr : r.success <;> simp [List.countP_cons, hr] <;> omega

/-- The scanner's accumulating loop is filtering followed by mapping. -/
theorem scan_foldl_eq (fs : FileSystem) (rootDir : String) (entries : List DirEntry)
    (acc : List Repository) :
    entries.foldl
        (fun acc entry =>
          if entry.isDir then
            if (fs.stat (joinPath (joinPath rootDir entry.name) ".git")).isSome then
              acc ++ [⟨joinPath rootDir entry.name, entry.name⟩]
            else acc
          else acc)
        acc =
      acc ++ (entries.filter (fun e =>
          e.isDir && (fs.stat (joinPath (joinPath rootDir e.name) ".git")).isSome)).map
        (fun e => ⟨joinPath rootDir e.name, e.name⟩) := by
  induction entries generalizing acc with
  | nil => simp
  | cons e l ih =>
    rw [List.foldl_cons]
    by_cases h1 : e.isDir = true
    · by_cases h2 : (fs.stat (joinPath (joinPath rootDir e.name) ".git")).isSome = true
      · simp [h1, h2, ih, List.filter_cons]
      · simp [h1, h2, ih, List.filter_cons]
    · simp [h1, ih, List.filter_cons]

/-! ## The claims -/

/-- C1: a batch run of `SyncRepositories` that returns without error satisfies
`SuccessCount + FailureCount = TotalRepositories = len(Results)`, where
`SuccessCount` counts the `Results` with `Success` true and `FailureCount`
those with `Success` false. -/
theorem C1_batch_count_invariant (fs : FileSystem) (g : String → GitEnv)
    (rootDir branchName : String) (sched : List Nat) (res : SyncResult)
    (h : SyncRepositories fs g rootDir branchName sched = .ok res) :
    res.successCount + res.failureCount = res.totalRepositories ∧
    res.totalRepositories = res.results.length ∧
    res.successCount = res.results.countP (fun r => r.success) ∧
    res.failureCount = res.results.countP (fun r => !r.success) := by
  unfold SyncRepositories at h
  rcases hscan : ScanDirectory fs rootDir with e | repos <;> rw [hscan] at h <;>
    dsimp only at h
  · exact absurd h (by simp)
  · by_cases hlen : repos.length = 0
    · rw [if_pos hlen] at h
      injection h with h
      subst h
      simp
    · rw [if_neg hlen] at h
      injection h with h
      subst h
      refine ⟨?_, ?_, rfl, rfl⟩
      · rw [countP_success_total, processRepositoriesParallel_length]
      · rw [processRepositoriesParallel_length]

/-- C1 witness: the demo root syncs two clean repositories; the counts add up. -/
theorem C1_batch_count_invariant_witness :
    demoBatch.successCount + demoBatch.failureCount = demoBatch.totalRepositories ∧
    demoBatch.totalRepositories = demoBatch.results.length ∧
    demoBatch.successCount = demoBatch.results.countP (fun r => r.success) ∧
    demoBatch.failureCount = demoBatch.results.countP (fun r => !r.success) :=
  C1_batch_count_invariant demoFS gEnvOf "/r" "" [1, 0] demoBatch (by decide)

/-- C2: whatever order `sched` the workers complete in (as long as every
worker does complete), the final result slice equals the per-repository
outcomes in discovery order: slot `i` holds the outcome of repository `i`. -/
theorem C2_outcomes_in_discovery_order (g : String → GitEnv)
    (repositories : List Repository) (branchName : String) (sched : List Nat)
    (hcover : ∀ i, i < repositories.length → i ∈ sched) :
    processRepositoriesParallel g repositories branchName sched =
      repositories.map (fun repo => syncOne g branchName repo) := by
  apply List.ext_getElem?
  intro j
  unfold processRepositoriesParallel runSchedule
  rw [List.getElem?_map, foldl_set_getElem?, List.getElem?_map]
  by_cases hj : j < repositories.length
  · rw [if_pos ⟨hcover j hj, by simpa using hj⟩]
    rw [List.getElem?_eq_getElem hj]
    simp [List.getD_eq_getElem?_getD, List.getElem?_eq_getElem hj]
  · rw [if_neg (by simp [hj])]
    rw [List.getElem?_replicate, if_neg (by simpa using hj),
      List.getElem?_eq_none (by simpa using Nat.le_of_not_lt hj)]
    simp

/-- C2 witness: two repositories whose workers complete in reversed order
still produce results in discovery order. -/
theorem C2_outcomes_in_discovery_order_witness :
    processRepositoriesParallel gEnvOf [repoAlpha, repoBeta] "" [1, 0] =
      [repoAlpha, repoBeta].map (fun repo => syncOne gEnvOf "" repo) :=
  C2_outcomes_in_discovery_order gEnvOf [repoAlpha, repoBeta] "" [1, 0]
    (by intro i hi
        have hlen2 : ([repoAlpha, repoBeta] : List Repository).length = 2 := rfl
        rcases i with _ | _ | i
        · decide
        · decide
        · omega)

/-- C3: the classifier matches case-insensitively (all matching is against
`toLowerString output`) in the fixed priority order with first match winning:
whenever rule 4's phrase `not a git repository` is present and the phrases of
the higher-priority rules 1–3 are absent, the classification is
`NotARepository` with a message containing `Not a valid`, whatever the
attempted command; the final conjunct is the same classification at the
upper-cased output, showing the matching ignores case. -/
theorem C3_classifier_not_a_repository (output command : String)
    (h1 : containsSubstr (toLowerString output) "uncommitted changes" = false)
    (h2 : containsSubstr (toLowerString output) "would be overwritten" = false)
    (h3 : (containsSubstr (toLowerString output) "already on" &&
      containsSubstr (toLowerString output) "main") = false)
    (h4 : containsSubstr (toLowerString output) "did not match any file" = false)
    (h5 : (containsSubstr (toLowerString output) "pathspec" &&
      containsSubstr (toLowerString output) "did not match") = false)
    (h6 : containsSubstr (toLowerString output) "not a git repository" = true) :
    ((classify output command).fst = .NotARepository ∧
      containsSubstr (classify output command).snd "Not a valid" = true) ∧
    (classify "FATAL: NOT A GIT REPOSITORY (or any of the parent directories): .git"
        "status").fst = .NotARepository := by
  refine ⟨?_, by decide⟩
  have hcls : classify output command = (.NotARepository, "Not a valid Git repository") := by
    simp only [classify]
    rw [h1, h2, h3, h4, h5, h6]
    simp
  rw [hcls]
  exact ⟨rfl, by decide⟩

/-- C3 witness: the spec's concrete classification test point. -/
theorem C3_classifier_not_a_repository_witness :
    (classify "fatal: not a git repository (or any of the parent directories): .git"
        "status").fst = .NotARepository ∧
    containsSubstr
      (classify "fatal: not a git repository (or any of the parent directories): .git"
        "status").snd "Not a valid" = true :=
  (C3_classifier_not_a_repository
    "fatal: not a git repository (or any of the parent directories): .git" "status"
    (by decide) (by decide) (by decide) (by decide) (by decide) (by decide)).1

/-- C4: `pullWithFallback` returns immediately after a successful plain pull;
a plain-pull failure triggers the fallback (whose first command is the fetch)
exactly when its text contains `no tracking information`, and is returned
unchanged, with no further command run, otherwise; the fallback itself
fetches, then either retries the plain pull after binding the upstream, or,
when the binding fails, pulls with explicit `origin <branch>`. -/
theorem C4_pull_fallback_exactly_on_no_tracking (g : GitEnv) (branchName : String) :
    (executeGitCommand g pullCmd = none →
      pullWithFallback g branchName = (none, [pullCmd])) ∧
    (∀ e, executeGitCommand g pullCmd = some e →
      containsSubstr e "no tracking information" = false →
      pullWithFallback g branchName = (some e, [pullCmd])) ∧
    (∀ e, executeGitCommand g pullCmd = some e →
      containsSubstr e "no tracking information" = true →
      pullWithFallback g branchName =
        ((setupTrackingAndPull g branchName).fst,
          pullCmd :: (setupTrackingAndPull g branchName).snd) ∧
      (setupTrackingAndPull g branchName).snd.head? = some fetchCmd) ∧
    (∀ e, executeGitCommand g fetchCmd = some e →
      setupTrackingAndPull g branchName = (some ("failed to fetch: " ++ e), [fetchCmd])) ∧
    (executeGitCommand g fetchCmd = none →
      executeGitCommand g (setUpstreamCmd branchName) = none →
      setupTrackingAndPull g branchName =
        ((executeGitCommand g pullCmd).map
            (fun e => "failed to pull after setting upstream: " ++ e),
          [fetchCmd, setUpstreamCmd branchName, pullCmd])) ∧
    (executeGitCommand g fetchCmd = none →
      ∀ e2, executeGitCommand g (setUpstreamCmd branchName) = some e2 →
      setupTrackingAndPull g branchName =
        ((executeGitCommand g (pullOriginCmd branchName)).map
            (fun e => "failed to pull from origin/" ++ branchName ++ ": " ++ e),
          [fetchCmd, setUpstreamCmd branchName, pullOriginCmd branchName])) := by
  refine ⟨?_, ?_, ?_, ?_, ?_, ?_⟩
  · intro hp
    unfold pullWithFallback
    rw [hp]
  · intro e hp hc
    unfold pullWithFallback
    rw [hp]
    simp [hc]
  · intro e hp hc
    constructor
    · unfold pullWithFallback
      rw [hp]
      simp [hc]
    · unfold setupTrackingAndPull
      rcases hf : executeGitCommand g fetchCmd with _ | ef
      · rcases hu : executeGitCommand g (setUpstreamCmd branchName) with _ | eu
        · rcases hp2 : executeGitCommand g pullCmd with _ | ep <;> simp
        · rcases hp3 : executeGitCommand g (pullOriginCmd branchName) with _ | eo <;> simp
      · simp
  · intro e hf
    unfold setupTrackingAndPull
    rw [hf]
  · intro hf hu
    unfold setupTrackingAndPull
    rw [hf, hu]
    rcases hp2 : executeGitCommand g pullCmd with _ | ep <;> simp
  · intro hf e2 hu
    unfold setupTrackingAndPull
    rw [hf, hu]
    rcases hp3 : executeGitCommand g (pullOriginCmd branchName) with _ | eo <;> simp

/-- C4 witness: a pull failure without the tracking phrase is surfaced
unchanged with no fallback command run. -/
theorem C4_pull_fallback_exactly_on_no_tracking_witness :
    pullWithFallback gPullConflict "main" =
      (some ("git command failed: exit status 1 (output: error: Your local changes " ++
        "to the following files would be overwritten by merge)"), [pullCmd]) :=
  (C4_pull_fallback_exactly_on_no_tracking gPullConflict "main").2.1
    ("git command failed: exit status 1 (output: error: Your local changes " ++
      "to the following files would be overwritten by merge)")
    (by decide) (by decide)

/-- C5: when the guard reports uncommitted changes, `CheckoutMainBranch`
returns the failed skip result and the only commands ever issued are the two
diff inspections — no checkout, pull, fetch or branch-resolution command. -/
theorem C5_uncommitted_guard_short_circuit (g : GitEnv) (repo : Repository)
    (branchName : String) (h : (hasUncommittedChanges g).fst = .ok true) :
    (CheckoutMainBranch g repo branchName).fst =
      ⟨repo, false, some "repository has uncommitted changes",
        "Skipped: Repository has uncommitted changes. Please commit or stash changes first."⟩ ∧
    ∀ c ∈ (CheckoutMainBranch g repo branchName).snd,
      c = diffCachedCmd ∨ c = diffQuietCmd := by
  have htr := hasUncommittedChanges_trace g
  rcases hEq : hasUncommittedChanges g with ⟨r, tr⟩
  rw [hEq] at h htr
  dsimp only at h htr
  subst h
  unfold CheckoutMainBranch
  rw [hEq]
  exact ⟨rfl, htr⟩

/-- C5 witness: a repository with staged changes is skipped after the two
diff checks alone. -/
theorem C5_uncommitted_guard_short_circuit_witness :
    (CheckoutMainBranch gDirty repoAlpha "main").fst =
      ⟨repoAlpha, false, some "repository has uncommitted changes",
        "Skipped: Repository has uncommitted changes. Please commit or stash changes first."⟩ ∧
    ∀ c ∈ (CheckoutMainBranch gDirty repoAlpha "main").snd,
      c = diffCachedCmd ∨ c = diffQuietCmd :=
  C5_uncommitted_guard_short_circuit gDirty repoAlpha "main" (by decide)

/-- C6: the target branch is the requested name exactly when that name is
non-empty and differs from the sentinel `main`; otherwise it is the resolved
default — so requesting `main` in a repository whose detected default is
`master` checks out `master`. -/
theorem C6_target_branch_selection (branchName defaultBranch : String) :
    (branchName ≠ "" → branchName ≠ "main" →
      resolveTarget branchName defaultBranch = branchName) ∧
    (branchName = "" ∨ branchName = "main" →
      resolveTarget branchName defaultBranch = defaultBranch) ∧
    (CheckoutMainBranch gMaster repoAlpha "main").fst.success = true ∧
    (CheckoutMainBranch gMaster repoAlpha "main").fst.message =
      "Checked out 'master' and pulled latest changes" := by
  refine ⟨?_, ?_, by decide, by decide⟩
  · intro h1 h2
    unfold resolveTarget
    rw [if_neg]
    simp [h1, h2]
  · intro h
    unfold resolveTarget
    rw [if_pos]
    rcases h with h | h <;> simp [h]

/-- C6 witness: an explicit non-`main` request wins; an empty request defers
to the resolved default. -/
theorem C6_target_branch_selection_witness :
    resolveTarget "feature" "master" = "feature" ∧
    resolveTarget "" "master" = "master" :=
  ⟨(C6_target_branch_selection "feature" "master").1 (by decide) (by decide),
    (C6_target_branch_selection "" "master").2.1 (Or.inl rfl)⟩

/-- C7: `getDefaultBranch` never returns an error, and its value follows the
fixed detection order: the last path segment of a successful
`symbolic-ref refs/remotes/origin/HEAD`; else `main` when `refs/heads/main`
verifies; else `master` when `refs/heads/master` verifies; else the
hard-coded `main`. -/
theorem C7_default_branch_resolution (g : GitEnv) :
    (∃ b, (getDefaultBranch g).fst = .ok b) ∧
    (∀ out, g symbolicRefCmd = .ok out →
      (getDefaultBranch g).fst = .ok (lastSegment out)) ∧
    ((∀ out, g symbolicRefCmd ≠ .ok out) →
      (executeGitCommand g showRefMainCmd = none →
        (getDefaultBranch g).fst = .ok "main") ∧
      (∀ e, executeGitCommand g showRefMainCmd = some e →
        (executeGitCommand g showRefMasterCmd = none →
          (getDefaultBranch g).fst = .ok "master") ∧
        (∀ e2, executeGitCommand g showRefMasterCmd = some e2 →
          (getDefaultBranch g).fst = .ok "main"))) := by
  rcases hsym : g symbolicRefCmd with out | ⟨code, out⟩ | m
  case ok =>
    refine ⟨⟨lastSegment out, by simp [getDefaultBranch, hsym]⟩, ?_, ?_⟩
    · intro out2 h2
      injection h2 with h2
      subst h2
      simp [getDefaultBranch, hsym]
    · intro hne
      exact absurd rfl (hne out)
  all_goals
    refine ⟨?_, ?_, ?_⟩
  case exitErr.refine_1 | launchErr.refine_1 =>
    rcases hm : executeGitCommand g showRefMainCmd with _ | e
    · exact ⟨"main", by simp [getDefaultBranch, hsym, hm]⟩
    · rcases hms : executeGitCommand g showRefMasterCmd with _ | e2
      · exact ⟨"master", by simp [getDefaultBranch, hsym, hm, hms]⟩
      · exact ⟨"main", by simp [getDefaultBranch, hsym, hm, hms]⟩
  case exitErr.refine_2 | launchErr.refine_2 =>
    intro out2 h2
    exact absurd h2 (by simp)
  case exitErr.refine_3 | launchErr.refine_3 =>
    intro hne
    refine ⟨?_, ?_⟩
    · intro hm
      simp [getDefaultBranch, hsym, hm]
    · intro e hm
      refine ⟨?_, ?_⟩
      · intro hms
        simp [getDefaultBranch, hsym, hm, hms]
      · intro e2 hms
        simp [getDefaultBranch, hsym, hm, hms]

/-- C7 witness: a resolvable remote HEAD pointer yields its last path
segment. -/
theorem C7_default_branch_resolution_witness :
    (getDefaultBranch gSym).fst = .ok "main" := by
  have h := (C7_default_branch_resolution gSym).2.1 "refs/remotes/origin/main\n" (by decide)
  rw [h]
  decide

/-- C8: `hasUncommittedChanges` answers `true` exactly when the staged check
exits 1 or — the staged check having exited 0 — the unstaged check exits 1;
`false` exactly when both exit 0; and an error exactly when the first check
to misbehave neither exits 0 nor exits 1 (another exit status, or a launch
failure). -/
theorem C8_uncommitted_changes_exit_semantics (g : GitEnv) :
    ((hasUncommittedChanges g).fst = .ok true ↔
      (exitsOne (g diffCachedCmd) = true ∨
        (exitsZero (g diffCachedCmd) = true ∧ exitsOne (g diffQuietCmd) = true))) ∧
    ((hasUncommittedChanges g).fst = .ok false ↔
      (exitsZero (g diffCachedCmd) = true ∧ exitsZero (g diffQuietCmd) = true)) ∧
    ((∃ e, (hasUncommittedChanges g).fst = .error e) ↔
      ((exitsZero (g diffCachedCmd) = false ∧ exitsOne (g diffCachedCmd) = false) ∨
        (exitsZero (g diffCachedCmd) = true ∧ exitsZero (g diffQuietCmd) = false ∧
          exitsOne (g diffQuietCmd) = false))) := by
  unfold hasUncommittedChanges exitsZero exitsOne
  rcases g diffCachedCmd with o | ⟨code, out⟩ | m
  · rcases g diffQuietCmd with o2 | ⟨code2, out2⟩ | m2
    · simp
    · rcases code2 with _ | _ | code2 <;> simp
    · simp
  · rcases code with _ | _ | code <;> simp
  · simp

/-- C9: `SyncRepositories` fails exactly when the scan fails, propagating the
wrapped scan error; a successful scan with zero repositories produces the
all-zero `SyncResult` with empty `Results`, not an error. -/
theorem C9_sync_error_iff_scan_error (fs : FileSystem) (g : String → GitEnv)
    (rootDir branchName : String) (sched : List Nat) :
    ((∃ e, SyncRepositories fs g rootDir branchName sched = .error e) ↔
      (∃ e, ScanDirectory fs rootDir = .error e)) ∧
    (∀ e, ScanDirectory fs rootDir = .error e →
      SyncRepositories fs g rootDir branchName sched =
        .error ("failed to scan directory: " ++ e)) ∧
    (ScanDirectory fs rootDir = .ok [] →
      SyncRepositories fs g rootDir branchName sched = .ok ⟨0, 0, 0, []⟩) := by
  rcases hscan : ScanDirectory fs rootDir with e | repos
  · refine ⟨?_, ?_, ?_⟩
    · simp only [SyncRepositories, hscan]
      exact ⟨fun _ => ⟨e, rfl⟩, fun _ => ⟨"failed to scan directory: " ++ e, rfl⟩⟩
    · intro e2 h2
      injection h2 with h2
      subst h2
      simp [SyncRepositories, hscan]
    · intro h2
      exact absurd h2 (by simp)
  · refine ⟨?_, ?_, ?_⟩
    · simp only [SyncRepositories, hscan]
      constructor
      · rintro ⟨e2, h2⟩
        by_cases hlen : repos.length = 0 <;> simp [hlen] at h2
      · rintro ⟨e2, h2⟩
        exact absurd h2 (by simp)
    · intro e2 h2
      exact absurd h2 (by simp)
    · intro h2
      injection h2 with h2
      subst h2
      simp [SyncRepositories, hscan]

/-- C9 witness: a nonexistent root aborts the batch with the wrapped scan
error. -/
theorem C9_sync_error_iff_scan_error_witness :
    SyncRepositories demoFS gEnvOf "/missing" "" [] =
      .error ("failed to scan directory: " ++ "stat /missing: no such file or directory") :=
  (C9_sync_error_iff_scan_error demoFS gEnvOf "/missing" "" []).2.1
    "stat /missing: no such file or directory" (by decide)

/-- C10: on an existing root that lists successfully, `ScanDirectory` returns
exactly the immediate entries that are directories and whose `<entry>/.git`
path exists — the `.git` marker may be found as a directory or as a regular
file, since only `Option.isSome` of the stat is consulted — in listing
order, as repositories named after the entry. -/
theorem C10_scan_selects_git_marked_subdirs (fs : FileSystem) (rootDir : String)
    (k : FsKind) (hroot : fs.stat rootDir = some k) (entries : List DirEntry)
    (hread : fs.readDir rootDir = .ok entries) :
    ScanDirectory fs rootDir =
      .ok ((entries.filter (fun e =>
          e.isDir && (fs.stat (joinPath (joinPath rootDir e.name) ".git")).isSome)).map
        (fun e => ⟨joinPath rootDir e.name, e.name⟩)) := by
  unfold ScanDirectory
  rw [hroot]
  simp only [Option.isNone_some, Bool.false_eq_true, if_false, hread]
  rw [scan_foldl_eq]
  simp

/-- C10 witness: the demo root yields `alpha` (a `.git` directory) and `beta`
(a `.git` plain file), skipping the plain file and the unmarked directory. -/
theorem C10_scan_selects_git_marked_subdirs_witness :
    ScanDirectory demoFS "/r" = .ok [repoAlpha, repoBeta] := by
  have h := C10_scan_selects_git_marked_subdirs demoFS "/r" .dir (by decide)
    demoEntries (by decide)
  rw [h]
  decide

end GoCli
